import Mathlib

/-!
Shallow embedding of the glacier-merging workflow documented by the two
tutorial notebooks in this repository: geometry intersection between
glacier outlines, drainage-network construction by downstream-flowline
matching, catchment width correction, and attribute reconciliation for
the merged glacier entity.  The notebooks call into the surrounding
toolkit; since only the callers are in the repository, the called
operations are modelled from the specification, while the attribute
recipes (Area summed, TermType kept, Name composed, identifier suffix)
follow the notebook cells that spell them out.
-/

namespace Oggm

/-- Grid point of a glacier map, in integer grid coordinates. -/
abbrev Pt := Int × Int

/-- Outline attribute record with the columns the notebooks use
(RGIId, Name, geometry, CenLon, CenLat, Area, TermType, region code). -/
structure Entity where
  rgiId : String
  name : String
  geom : List Pt
  cenLon : ℚ
  cenLat : ℚ
  area : ℚ
  termType : Nat
  region : String
deriving Repr, DecidableEq

/-- Centroid of a list of grid points, as mean coordinates. -/
def centroidOf (cells : List Pt) : ℚ × ℚ :=
  ((cells.map (fun p => (p.1 : ℚ))).sum / cells.length,
   (cells.map (fun p => (p.2 : ℚ))).sum / cells.length)

/-- Modelled from the spec: a glacier directory as consumed by
merge_glacier_tasks, which is missing from src (the notebooks only call
it).  It holds the outline entity, the domain padding (the border
parameter of the configuration), the downstream flowline, the flowline
segments it owns (tagged with the owning glacier identifier) and the
tributary-attachment edges of its drainage network. -/
structure Glacier where
  entity : Entity
  border : Nat
  downstream : List Pt
  segs : List (String × Nat)
  edges : List (String × Pt)
deriving Repr, DecidableEq

/-- Modelled from the spec: the downstream flowline is computed only
within the glacier's own computational domain, whose extent is set by
the border padding parameter; points beyond it are cut off. -/
def effectiveDownstream (g : Glacier) : List Pt :=
  g.downstream.take g.border

/-- Modelled from the spec: a candidate flow-connects to a host when the
candidate's downstream flowline, within its domain, meets the host's
downstream flowline within the host's domain. -/
def flowConnects (host cand : Glacier) : Bool :=
  (effectiveDownstream cand).any (fun p => decide (p ∈ effectiveDownstream host))

/-- Record produced by intersection detection: the two glacier
identifiers, the shared geometry, and whether it is flow-connecting
(downstream flowlines meet) or merely boundary-touching. -/
structure IntersectionRecord where
  id1 : String
  id2 : String
  geom : List Pt
  flowConnecting : Bool
deriving Repr, DecidableEq

/-- Modelled from the spec: GeometryIntersector.detect, the pairwise
intersection computation (compute_intersects in the notebook is only
called there, its body is missing from src).  It returns the shared
outline geometry of the two glaciers, classified flow-connecting when
their downstream flowlines also meet, and the empty list — a normal
value, not a failure — when the outlines are disjoint. -/
def detect (a b : Glacier) : List IntersectionRecord :=
  let common := a.entity.geom.filter (fun p => decide (p ∈ b.entity.geom))
  if common.isEmpty then []
  else [⟨a.entity.rgiId, b.entity.rgiId, common, flowConnects a b || flowConnects b a⟩]

/-- Modelled from the spec: the first point of the candidate's effective
downstream flowline that lies on the downstream flowline of one of the
already attached glaciers — the most-downstream attachment point — or
none when the candidate does not flow-connect to the attached set. -/
def candAttach (att : List Glacier) (c : Glacier) : Option Pt :=
  (effectiveDownstream c).find?
    (fun p => att.any (fun h => decide (p ∈ effectiveDownstream h)))

/-- Modelled from the spec: breadth-first tributary attachment.  Each
pass moves every remaining candidate that flow-connects to an already
attached glacier into the accepted list, recording its attachment point;
the pass repeats (bounded by fuel) until no further candidate connects.
Returns the accepted candidates with attachment points, and the
remaining (rejected, NoConnection) candidates. -/
def buildAux : Nat → List Glacier → List (Glacier × Pt) → List Glacier →
    List (Glacier × Pt) × List Glacier
  | 0, _, acc, rem => (acc, rem)
  | n + 1, att, acc, rem =>
    let hits := rem.filterMap (fun c => (candAttach att c).map (fun p => (c, p)))
    if hits.isEmpty then (acc, rem)
    else buildAux n (att ++ hits.map Prod.fst) (acc ++ hits)
      (rem.filter (fun c => !(candAttach att c).isSome))

/-- Run the breadth-first attachment starting from the root, with enough
fuel to attach every candidate. -/
def runBuild (root : Glacier) (cands : List Glacier) :
    List (Glacier × Pt) × List Glacier :=
  buildAux cands.length [root] [] cands

/-- Attribute reconciliation for the merged entity, following the
notebook recipe: Area is the sum of the constituents' authoritative
areas, the centroid is recomputed from the merged geometry, TermType is
kept from the root, the identifier gets the literal suffix marking
merged status, and the name is the root name with a note listing the
merged identifiers. -/
def reconcile (root : Entity) (accepted : List Entity) : Entity :=
  let geom := root.geom ++ accepted.flatMap (fun e => e.geom)
  let cen := centroidOf geom
  { rgiId := root.rgiId ++ "_merged"
    name := root.name ++ " merged with " ++
      String.intercalate " " (accepted.map (fun e => e.rgiId))
    geom := geom
    cenLon := cen.1
    cenLat := cen.2
    area := root.area + (accepted.map (fun e => e.area)).sum
    termType := root.termType
    region := root.region }

/-- The merged glacier directory: reconciled attributes, the root's
downstream line and domain, the union of the constituent flowline
segments, and the recorded tributary-attachment edges. -/
def mergedGlacier (root : Glacier) (acc : List (Glacier × Pt)) : Glacier :=
  { entity := reconcile root.entity ((acc.map Prod.fst).map (fun g => g.entity))
    border := root.border
    downstream := root.downstream
    segs := root.segs ++ (acc.map Prod.fst).flatMap (fun g => g.segs)
    edges := root.edges ++ acc.map (fun cp => (cp.1.entity.rgiId, cp.2)) }

/-- Modelled from the spec: merging one root glacier with a candidate
set.  Returns the merged glacier, the accepted candidates and the
rejected candidates.  With no accepted candidate the root is returned
unchanged (identity law of the spec). -/
def mergeGlacierTasksSingle (root : Glacier) (cands : List Glacier) :
    Glacier × List Glacier × List Glacier :=
  if ((runBuild root cands).1).isEmpty then (root, [], (runBuild root cands).2)
  else (mergedGlacier root (runBuild root cands).1,
    (runBuild root cands).1.map Prod.fst, (runBuild root cands).2)

/-- The glacier with the largest area of a list (the earliest one on
ties), or none for the empty list. -/
def largest : List Glacier → Option Glacier
  | [] => none
  | g :: gs =>
    match largest gs with
    | none => some g
    | some m => if g.entity.area < m.entity.area then some m else some g

/-- Modelled from the spec: when no primary identifier is supplied, the
largest remaining glacier is repeatedly taken as root and merged with
the rest; each merge result is collected and the rejected remainder is
processed again. -/
def mergeAll : Nat → List Glacier → List Glacier
  | 0, _ => []
  | n + 1, gs =>
    match largest gs with
    | none => []
    | some root =>
      let rest := gs.filter (fun g => g.entity.rgiId != root.entity.rgiId)
      let r3 := mergeGlacierTasksSingle root rest
      r3.1 :: mergeAll n r3.2.2

/-- Tagged result of the merge operation: a single entity when a primary
identifier was supplied, a collection of merge results otherwise. -/
inductive MergeResult where
  | one : Glacier → MergeResult
  | many : List Glacier → MergeResult
deriving Repr, DecidableEq

/-- Modelled from the spec: the top-level merge operation of the
workflow.  With a primary identifier it merges everything onto that
glacier and returns a single entity (none if the identifier is absent);
without one it picks the largest glacier as root, merges, and repeats on
the unmerged remainder, returning a collection. -/
def merge_glacier_tasks (gdirs : List Glacier) (mainId : Option String) :
    Option MergeResult :=
  match mainId with
  | some i =>
    match gdirs.find? (fun g => g.entity.rgiId == i) with
    | none => none
    | some root =>
      some (MergeResult.one
        (mergeGlacierTasksSingle root (gdirs.filter (fun g => g.entity.rgiId != i))).1)
  | none => some (MergeResult.many (mergeAll gdirs.length gdirs))

/-- Flowline segment state used by the width-correction step: its
per-segment width, bed-shape classification (rectangular or not) and
whether the segment touches a flow-connecting intersection. -/
structure FlSegment where
  width : ℚ
  bedRectangular : Bool
  touchesIntersect : Bool
deriving Repr, DecidableEq

/-- Modelled from the spec and the notebook text in src: when a glacier
section touches an intersect it is attributed a rectangular bed instead
of a parabolic one; all other segments keep their classification. -/
def catchment_width_correction (segs : List FlSegment) : List FlSegment :=
  segs.map (fun s => if s.touchesIntersect then { s with bedRectangular := true } else s)

/-- Two drainage networks are equal up to segment ordering: same
multiset of segment nodes and same multiset of attachment edges. -/
def networkEquiv (a b : Glacier) : Prop :=
  List.Perm a.segs b.segs ∧ List.Perm a.edges b.edges

instance (a b : Glacier) : Decidable (networkEquiv a b) := by
  unfold networkEquiv; infer_instance

/-- Convenience constructor for concrete outline records. -/
def mkEntity (i : String) (a : ℚ) (g : List Pt) : Entity :=
  { rgiId := i, name := i, geom := g, cenLon := 0, cenLat := 0,
    area := a, termType := 1, region := "11" }

/-- Convenience constructor for concrete glacier directories. -/
def mkGlacier (e : Entity) (b : Nat) (d : List Pt) : Glacier :=
  { entity := e, border := b, downstream := d, segs := [(e.rgiId, 0)], edges := [] }

/-- Concrete reconciliation scenario of the spec: root of area 12 with
two accepted tributaries of areas 3 and 1.5 square kilometres. -/
def glScRoot : Glacier :=
  mkGlacier (mkEntity "RGI60-11.00001" 12 [(0, 0), (1, 0)]) 5 [(0, 0), (1, 0), (2, 0)]

/-- First tributary of the concrete reconciliation scenario, area 3. -/
def glScA : Glacier := mkGlacier (mkEntity "RGI60-11.00002" 3 [(2, 1)]) 5 [(2, 1), (2, 0)]

/-- Second tributary of the concrete reconciliation scenario, area 1.5. -/
def glScB : Glacier := mkGlacier (mkEntity "RGI60-11.00003" (3 / 2) [(1, 1)]) 5 [(1, 1), (1, 0)]

/-- Root glacier used to witness the identifier and name rule. -/
def glW5r : Glacier := mkGlacier (mkEntity "RGI60-11.02709" 9 [(0, 0)]) 5 [(0, 0), (1, 0)]

/-- Tributary used to witness the identifier and name rule. -/
def glW5t : Glacier := mkGlacier (mkEntity "RGI60-11.02772" 4 [(1, 1)]) 5 [(1, 1), (1, 0)]

/-- First glacier of the disjoint-outline witness pair. -/
def glW7a : Glacier := mkGlacier (mkEntity "RGI60-11.00846" 5 [(0, 0), (0, 1)]) 5 [(0, 0), (1, 0)]

/-- Second glacier of the disjoint-outline witness pair. -/
def glW7b : Glacier := mkGlacier (mkEntity "RGI60-11.00897" 6 [(4, 4), (4, 5)]) 5 [(4, 4), (5, 4)]

/-- Root glacier of the order-independence witness scenario. -/
def glW2r : Glacier :=
  mkGlacier (mkEntity "RGI60-11.09001" 20 [(0, 1)]) 9 [(0, 0), (1, 0), (2, 0), (3, 0)]

/-- First candidate of the order-independence witness scenario. -/
def glW2a : Glacier := mkGlacier (mkEntity "RGI60-11.09002" 5 [(1, 2)]) 9 [(1, 1), (1, 0)]

/-- Second candidate of the order-independence witness scenario. -/
def glW2b : Glacier := mkGlacier (mkEntity "RGI60-11.09003" 4 [(2, 2)]) 9 [(2, 1), (2, 0)]

/-- Third candidate of the order-independence witness scenario. -/
def glW2c : Glacier := mkGlacier (mkEntity "RGI60-11.09004" 3 [(3, 2)]) 9 [(3, 1), (3, 0)]

/-- Root glacier of the rejection witness scenario. -/
def glW4r : Glacier :=
  mkGlacier (mkEntity "RGI60-01.03890" 10 [(0, 0), (0, 1)]) 6 [(0, 0), (1, 0), (2, 0)]

/-- Candidate that flow-connects to the root in the rejection witness
scenario. -/
def glW4x : Glacier := mkGlacier (mkEntity "RGI60-01.23664" 6 [(1, 1)]) 6 [(1, 1), (1, 0)]

/-- Candidate whose outline touches the root's outline but whose
downstream flowline meets nothing, in the rejection witness scenario. -/
def glW4y : Glacier := mkGlacier (mkEntity "RGI60-01.23665" 2 [(0, 1), (0, 2)]) 6 [(7, 7), (8, 7)]

/-- Parabolic segment touching a flow-connecting intersection, used to
witness the width-correction rule. -/
def flSegW8 : FlSegment := { width := 7, bedRectangular := false, touchesIntersect := true }

/-- Small glacier of the primary-selection witness scenario. -/
def glW6s : Glacier := mkGlacier (mkEntity "RGI60-11.00101" 2 [(5, 5)]) 6 [(1, 1), (1, 0)]

/-- Large glacier of the primary-selection witness scenario. -/
def glW6b : Glacier := mkGlacier (mkEntity "RGI60-11.00102" 7 [(6, 6)]) 6 [(0, 0), (1, 0), (2, 0)]

/-- Root glacier of the border-limitation scenario, with a large domain. -/
def glBr : Glacier :=
  mkGlacier (mkEntity "RGI60-11.02709" 30 [(0, 0), (1, 0), (2, 0), (2, 1)]) 10
    [(0, 0), (1, 0), (2, 0), (3, 0), (4, 0)]

/-- Physically adjacent candidate of the border-limitation scenario:
its full downstream path reaches the root's line, but its domain border
of 2 truncates the computed downstream line before it gets there. -/
def glBc : Glacier :=
  mkGlacier (mkEntity "RGI60-11.02701" 1 [(2, 1), (3, 1), (3, 2)]) 2
    [(3, 3), (3, 2), (3, 1), (3, 0)]

/-- The same candidate recomputed with a higher border value. -/
def glBcWide : Glacier := { glBc with border := 4 }

section Helpers

lemma buildAux_zero (att : List Glacier) (acc : List (Glacier × Pt)) (rem : List Glacier) :
    buildAux 0 att acc rem = (acc, rem) := rfl

lemma buildAux_succ (n : Nat) (att : List Glacier) (acc : List (Glacier × Pt))
    (rem : List Glacier) :
    buildAux (n + 1) att acc rem =
      if (rem.filterMap (fun c => (candAttach att c).map (fun p => (c, p)))).isEmpty
      then (acc, rem)
      else buildAux n
        (att ++ (rem.filterMap (fun c => (candAttach att c).map (fun p => (c, p)))).map Prod.fst)
        (acc ++ rem.filterMap (fun c => (candAttach att c).map (fun p => (c, p))))
        (rem.filter (fun c => !(candAttach att c).isSome)) := rfl

lemma candAttach_isSome_iff (att : List Glacier) (c : Glacier) :
    (candAttach att c).isSome = true ↔ ∃ h ∈ att, flowConnects h c = true := by
  unfold candAttach flowConnects
  rw [List.find?_isSome]
  constructor
  · rintro ⟨p, hp, hq⟩
    rw [List.any_eq_true] at hq
    obtain ⟨g, hg, hmem⟩ := hq
    exact ⟨g, hg, List.any_eq_true.mpr ⟨p, hp, hmem⟩⟩
  · rintro ⟨g, hg, hfc⟩
    rw [List.any_eq_true] at hfc
    obtain ⟨p, hp, hmem⟩ := hfc
    exact ⟨p, hp, List.any_eq_true.mpr ⟨g, hg, hmem⟩⟩

lemma candAttach_eq_none (att : List Glacier) (c : Glacier)
    (h : ∀ g ∈ att, flowConnects g c = false) : candAttach att c = none := by
  rw [← Option.not_isSome_iff_eq_none]
  intro hs
  obtain ⟨g, hg, hfc⟩ := (candAttach_isSome_iff att c).mp hs
  rw [h g hg] at hfc
  exact Bool.false_ne_true hfc

lemma filterMap_attach_fst (att : List Glacier) (l : List Glacier) :
    (l.filterMap (fun c => (candAttach att c).map (fun p => (c, p)))).map Prod.fst
      = l.filter (fun c => (candAttach att c).isSome) := by
  induction l with
  | nil => rfl
  | cons a l ih =>
    cases hf : candAttach att a <;>
      simp [List.filterMap_cons, hf, List.filter_cons, ih]

lemma buildAux_nil_rem (n : Nat) (att : List Glacier) (acc : List (Glacier × Pt)) :
    buildAux n att acc [] = (acc, []) := by
  cases n with
  | zero => rfl
  | succ n => rw [buildAux_succ]; rfl

lemma buildAux_perm (n : Nat) :
    ∀ (att : List Glacier) (acc : List (Glacier × Pt)) (rem : List Glacier),
    List.Perm ((buildAux n att acc rem).1.map Prod.fst ++ (buildAux n att acc rem).2)
      (acc.map Prod.fst ++ rem) := by
  induction n with
  | zero => intro att acc rem; exact List.Perm.refl _
  | succ n ih =>
    intro att acc rem
    rw [buildAux_succ]
    split
    · exact List.Perm.refl _
    · refine (ih _ _ _).trans ?_
      rw [List.map_append, List.append_assoc]
      refine List.Perm.append_left _ ?_
      rw [filterMap_attach_fst]
      exact List.filter_append_perm _ rem

lemma buildAux_keeps_unconnected (c : Glacier) (S : List Glacier)
    (hS : ∀ g ∈ S, g ≠ c → flowConnects g c = false) (n : Nat) :
    ∀ (att : List Glacier) (acc : List (Glacier × Pt)) (rem : List Glacier),
    c ∈ rem → (∀ g ∈ rem, g ∈ S) → (∀ g ∈ att, flowConnects g c = false) →
    c ∈ (buildAux n att acc rem).2 := by
  induction n with
  | zero => intro att acc rem hc _ _; exact hc
  | succ n ih =>
    intro att acc rem hc hremS hatt
    rw [buildAux_succ]
    split
    · exact hc
    · apply ih
      · rw [List.mem_filter]
        refine ⟨hc, ?_⟩
        rw [candAttach_eq_none att c hatt]
        rfl
      · intro g hg
        exact hremS g (List.mem_filter.mp hg).1
      · intro g hg
        rw [List.mem_append] at hg
        cases hg with
        | inl h1 => exact hatt g h1
        | inr h2 =>
          rw [filterMap_attach_fst] at h2
          have hmem := List.mem_filter.mp h2
          have hne : g ≠ c := by
            intro he
            rw [he, candAttach_eq_none att c hatt] at hmem
            exact Bool.false_ne_true hmem.2
          exact hS g (hremS g hmem.1) hne

lemma buildAux_first_pass (k : Nat) (att : List Glacier) (cands : List Glacier)
    (hall : ∀ c ∈ cands, (candAttach att c).isSome = true) (hne : cands ≠ []) :
    buildAux (k + 1) att [] cands
      = (cands.filterMap (fun c => (candAttach att c).map (fun p => (c, p))), []) := by
  rw [buildAux_succ]
  have hfilter : cands.filter (fun c => !(candAttach att c).isSome) = [] := by
    rw [List.filter_eq_nil_iff]
    intro c hc
    rw [hall c hc]
    exact Bool.false_ne_true
  have hhits :
      (cands.filterMap (fun c => (candAttach att c).map (fun p => (c, p)))).isEmpty = false := by
    cases cands with
    | nil => exact absurd rfl hne
    | cons a l =>
      obtain ⟨p, hp⟩ := Option.isSome_iff_exists.mp (hall a (by simp))
      simp [List.filterMap_cons, hp]
  rw [hhits]
  simp only [Bool.false_eq_true, if_false]
  rw [hfilter, buildAux_nil_rem, List.nil_append]

lemma effDown_merged (r : Glacier) (acc : List (Glacier × Pt)) :
    effectiveDownstream (mergedGlacier r acc) = effectiveDownstream r := rfl

lemma candAttach_merged (r : Glacier) (acc : List (Glacier × Pt)) (c : Glacier) :
    candAttach [mergedGlacier r acc] c = candAttach [r] c := by
  unfold candAttach
  simp only [List.any_cons, List.any_nil, Bool.or_false, effDown_merged]

end Helpers

/-- C1: for every merge, the merged entity's area is the arithmetic sum
of the root's area and the accepted tributaries' authoritative areas —
including tributaries that never dynamically connect during a
simulation, since acceptance is purely geometric — and in particular a
root of area 12 with accepted tributaries of areas 3 and 1.5 reconciles
to exactly 16.5. -/
theorem merged_area_eq_sum :
    (∀ (root : Glacier) (cands : List Glacier),
      (mergeGlacierTasksSingle root cands).1.entity.area
        = root.entity.area
          + (((mergeGlacierTasksSingle root cands).2.1).map (fun g => g.entity.area)).sum) ∧
    (mergeGlacierTasksSingle glScRoot [glScA, glScB]).2.1 = [glScA, glScB] ∧
    (mergeGlacierTasksSingle glScRoot [glScA, glScB]).1.entity.area = 33 / 2 := by
  refine ⟨?_, rfl, ?_⟩
  · intro root cands
    unfold mergeGlacierTasksSingle
    split
    · simp
    · simp only [mergedGlacier, reconcile, List.map_map]
      rfl
  · show (12 : ℚ) + ((3 : ℚ) + ((3 / 2 : ℚ) + 0)) = 33 / 2
    norm_num

/-- C3: merging a glacier with an empty candidate set is the identity:
the root entity is returned unchanged, with no accepted and no rejected
candidates. -/
theorem merge_empty_identity (root : Glacier) :
    mergeGlacierTasksSingle root [] = (root, [], []) := rfl

/-- C9: the merged entity's termination type equals the root's, and the
region code — an attribute with no combination rule — is likewise left
unchanged by the merge. -/
theorem merge_preserves_root_attrs (root : Glacier) (cands : List Glacier) :
    (mergeGlacierTasksSingle root cands).1.entity.termType = root.entity.termType ∧
    (mergeGlacierTasksSingle root cands).1.entity.region = root.entity.region := by
  unfold mergeGlacierTasksSingle
  split
  · exact ⟨rfl, rfl⟩
  · exact ⟨rfl, rfl⟩

/-- C5: for every merge that accepts at least one tributary, the merged
identifier is the root identifier with the literal suffix marking merged
status, and the merged name is the root name with a note listing the
merged identifiers. -/
theorem merged_id_and_name (root : Glacier) (cands : List Glacier)
    (hne : (mergeGlacierTasksSingle root cands).2.1 ≠ []) :
    (mergeGlacierTasksSingle root cands).1.entity.rgiId
      = root.entity.rgiId ++ "_merged" ∧
    (mergeGlacierTasksSingle root cands).1.entity.name
      = root.entity.name ++ " merged with "
        ++ String.intercalate " "
          (((mergeGlacierTasksSingle root cands).2.1).map (fun g => g.entity.rgiId)) := by
  unfold mergeGlacierTasksSingle at hne ⊢
  by_cases h : ((runBuild root cands).1).isEmpty
  · rw [if_pos h] at hne
    exact absurd rfl hne
  · rw [if_neg h] at hne ⊢
    constructor
    · rfl
    · simp only [mergedGlacier, reconcile, List.map_map]
      rfl

/-- Witness for the identifier and name rule at a concrete merge with a
nonempty accepted set. -/
theorem merged_id_and_name_witness :
    (mergeGlacierTasksSingle glW5r [glW5t]).1.entity.rgiId
      = glW5r.entity.rgiId ++ "_merged" ∧
    (mergeGlacierTasksSingle glW5r [glW5t]).1.entity.name
      = glW5r.entity.name ++ " merged with "
        ++ String.intercalate " "
          (((mergeGlacierTasksSingle glW5r [glW5t]).2.1).map (fun g => g.entity.rgiId)) :=
  merged_id_and_name glW5r [glW5t] (by decide)

/-- C7: for glaciers whose outline polygons are disjoint, detect returns
the empty sequence of intersection records — a normal result, not a
failure. -/
theorem detect_disjoint_empty (a b : Glacier)
    (h : ∀ p ∈ a.entity.geom, p ∉ b.entity.geom) : detect a b = [] := by
  have hc : a.entity.geom.filter (fun p => decide (p ∈ b.entity.geom)) = [] := by
    rw [List.filter_eq_nil_iff]
    intro p hp
    simpa using h p hp
  simp [detect, hc]

/-- Witness for detect on a concrete disjoint pair. -/
theorem detect_disjoint_empty_witness : detect glW7a glW7b = [] :=
  detect_disjoint_empty glW7a glW7b (by decide)

/-- C8: the width-correction step forces the bed shape of every segment
adjacent to a flow-connecting intersection to rectangular, and leaves
every other segment unchanged. -/
theorem width_correction_rect (segs : List FlSegment) (i : Nat) (h : i < segs.length) :
    ∃ h2 : i < (catchment_width_correction segs).length,
      (((segs.get ⟨i, h⟩).touchesIntersect = true →
        ((catchment_width_correction segs).get ⟨i, h2⟩).bedRectangular = true) ∧
       ((segs.get ⟨i, h⟩).touchesIntersect = false →
        (catchment_width_correction segs).get ⟨i, h2⟩ = segs.get ⟨i, h⟩)) := by
  have h2 : i < (catchment_width_correction segs).length := by
    simpa [catchment_width_correction] using h
  have hg : (catchment_width_correction segs).get ⟨i, h2⟩
      = if (segs.get ⟨i, h⟩).touchesIntersect
        then { segs.get ⟨i, h⟩ with bedRectangular := true }
        else segs.get ⟨i, h⟩ := by
    simp [catchment_width_correction]
  refine ⟨h2, ?_, ?_⟩
  · intro ht
    rw [hg, if_pos ht]
  · intro hf
    rw [hg, if_neg (fun ht => Bool.false_ne_true (hf ▸ ht))]

section OrderIndependence

lemma mergeSingle_pair (r X Y : Glacier) (pX pY : Pt)
    (hX : candAttach [r] X = some pX) (hY : candAttach [r] Y = some pY) :
    mergeGlacierTasksSingle r [X, Y]
      = (mergedGlacier r [(X, pX), (Y, pY)], [X, Y], []) := by
  have hrb : runBuild r [X, Y] = ([(X, pX), (Y, pY)], []) := by
    have hall : ∀ c ∈ [X, Y], (candAttach [r] c).isSome = true := by
      intro c hc
      rcases List.mem_cons.mp hc with rfl | hc2
      · rw [hX]; rfl
      · rcases List.mem_singleton.mp hc2 with rfl
        rw [hY]; rfl
    show buildAux (1 + 1) [r] [] [X, Y] = ([(X, pX), (Y, pY)], [])
    rw [buildAux_first_pass 1 [r] [X, Y] hall (by simp)]
    simp [List.filterMap_cons, hX, hY]
  unfold mergeGlacierTasksSingle
  rw [hrb]
  rfl

lemma mergeSingle_one (M1 r : Glacier)
    (hM : ∀ c, candAttach [M1] c = candAttach [r] c) (Z : Glacier) (pZ : Pt)
    (hZ : candAttach [r] Z = some pZ) :
    mergeGlacierTasksSingle M1 [Z] = (mergedGlacier M1 [(Z, pZ)], [Z], []) := by
  have hrb : runBuild M1 [Z] = ([(Z, pZ)], []) := by
    have hall : ∀ c ∈ [Z], (candAttach [M1] c).isSome = true := by
      intro c hc
      rcases List.mem_singleton.mp hc with rfl
      rw [hM, hZ]; rfl
    show buildAux (0 + 1) [M1] [] [Z] = ([(Z, pZ)], [])
    rw [buildAux_first_pass 0 [M1] [Z] hall (by simp)]
    simp [List.filterMap_cons, hM, hZ]
  unfold mergeGlacierTasksSingle
  rw [hrb]
  rfl

/-- C2: merging candidates A and B onto the root and then C yields the
same final drainage network, up to segment ordering, as merging C and B
and then A, provided all three flow-connect to the root. -/
theorem merge_order_independent (r A B C : Glacier)
    (hA : flowConnects r A = true) (hB : flowConnects r B = true)
    (hC : flowConnects r C = true) :
    networkEquiv
      (mergeGlacierTasksSingle (mergeGlacierTasksSingle r [A, B]).1 [C]).1
      (mergeGlacierTasksSingle (mergeGlacierTasksSingle r [C, B]).1 [A]).1 := by
  have mkSome : ∀ X : Glacier, flowConnects r X = true →
      (candAttach [r] X).isSome = true := by
    intro X hX
    exact (candAttach_isSome_iff [r] X).mpr ⟨r, List.mem_singleton.mpr rfl, hX⟩
  obtain ⟨pA, hpA⟩ := Option.isSome_iff_exists.mp (mkSome A hA)
  obtain ⟨pB, hpB⟩ := Option.isSome_iff_exists.mp (mkSome B hB)
  obtain ⟨pC, hpC⟩ := Option.isSome_iff_exists.mp (mkSome C hC)
  rw [mergeSingle_pair r A B pA pB hpA hpB, mergeSingle_pair r C B pC pB hpC hpB]
  rw [show (mergedGlacier r [(A, pA), (B, pB)], [A, B],
    ([] : List Glacier)).1 = mergedGlacier r [(A, pA), (B, pB)] from rfl]
  rw [show (mergedGlacier r [(C, pC), (B, pB)], [C, B],
    ([] : List Glacier)).1 = mergedGlacier r [(C, pC), (B, pB)] from rfl]
  rw [mergeSingle_one (mergedGlacier r [(A, pA), (B, pB)]) r
    (fun c => candAttach_merged r [(A, pA), (B, pB)] c) C pC hpC]
  rw [mergeSingle_one (mergedGlacier r [(C, pC), (B, pB)]) r
    (fun c => candAttach_merged r [(C, pC), (B, pB)] c) A pA hpA]
  constructor
  · show List.Perm
      ((mergedGlacier (mergedGlacier r [(A, pA), (B, pB)]) [(C, pC)]).segs)
      ((mergedGlacier (mergedGlacier r [(C, pC), (B, pB)]) [(A, pA)]).segs)
    simp only [mergedGlacier, List.map_cons, List.map_nil, List.flatMap_cons,
      List.flatMap_nil, List.append_nil]
    rw [List.perm_iff_count]
    intro a
    simp only [List.count_append]
    omega
  · show List.Perm
      ((mergedGlacier (mergedGlacier r [(A, pA), (B, pB)]) [(C, pC)]).edges)
      ((mergedGlacier (mergedGlacier r [(C, pC), (B, pB)]) [(A, pA)]).edges)
    simp only [mergedGlacier, List.map_cons, List.map_nil]
    rw [List.perm_iff_count]
    intro a
    simp only [List.count_append, List.count_cons, List.count_nil]
    omega

end OrderIndependence

/-- Witness for order independence on a concrete root and three
candidates that all flow-connect to it. -/
theorem merge_order_independent_witness :
    networkEquiv
      (mergeGlacierTasksSingle (mergeGlacierTasksSingle glW2r [glW2a, glW2b]).1 [glW2c]).1
      (mergeGlacierTasksSingle (mergeGlacierTasksSingle glW2r [glW2c, glW2b]).1 [glW2a]).1 :=
  merge_order_independent glW2r glW2a glW2b glW2c (by decide) (by decide) (by decide)

/-- C4: no rejected candidate contributes a node to the merged network —
when every glacier owns its segment tags and identifiers are distinct,
every segment of the merged network carries an identifier different from
the rejected candidate's — and a candidate that flow-connects to nothing
in the batch (for instance one whose only intersection with the network
is boundary-touching) is rejected. -/
theorem rejected_isolated (root : Glacier) (cands : List Glacier) (c : Glacier) :
    (c ∈ (mergeGlacierTasksSingle root cands).2.2 →
      (∀ g ∈ root :: cands, ∀ s ∈ g.segs, s.1 = g.entity.rgiId) →
      ((root :: cands).map (fun g => g.entity.rgiId)).Nodup →
      ∀ s ∈ (mergeGlacierTasksSingle root cands).1.segs, s.1 ≠ c.entity.rgiId) ∧
    (c ∈ cands → flowConnects root c = false →
      (∀ g ∈ cands, g ≠ c → flowConnects g c = false) →
      c ∈ (mergeGlacierTasksSingle root cands).2.2) := by
  have hperm : List.Perm
      ((runBuild root cands).1.map Prod.fst ++ (runBuild root cands).2) cands := by
    have := buildAux_perm cands.length [root] [] cands
    simpa using this
  constructor
  · intro hrej hown hnodup s hs
    have hcrej : c ∈ (runBuild root cands).2 := by
      unfold mergeGlacierTasksSingle at hrej
      split at hrej
      · exact hrej
      · exact hrej
    have hccands : c ∈ cands := hperm.subset (List.mem_append_right _ hcrej)
    rw [List.map_cons] at hnodup
    have hrootid : root.entity.rgiId ∉ cands.map (fun g => g.entity.rgiId) :=
      (List.nodup_cons.mp hnodup).1
    have htail : (cands.map (fun g => g.entity.rgiId)).Nodup :=
      (List.nodup_cons.mp hnodup).2
    have hidnodup : (((runBuild root cands).1.map Prod.fst ++ (runBuild root cands).2).map
        (fun g => g.entity.rgiId)).Nodup :=
      ((hperm.map (fun g => g.entity.rgiId)).nodup_iff).mpr htail
    rw [List.map_append] at hidnodup
    have hdisj := (List.nodup_append.mp hidnodup).2.2
    have hcid : c.entity.rgiId ∈ (runBuild root cands).2.map (fun g => g.entity.rgiId) :=
      List.mem_map_of_mem _ hcrej
    have hfromroot : s ∈ root.segs → s.1 ≠ c.entity.rgiId := by
      intro h1 heq
      have hsid : s.1 = root.entity.rgiId :=
        hown root (List.mem_cons_self _ _) s h1
      apply hrootid
      rw [← hsid, heq]
      exact List.mem_map_of_mem _ hccands
    unfold mergeGlacierTasksSingle at hs
    split at hs
    · exact hfromroot hs
    · have hs2 : s ∈ root.segs
          ++ ((runBuild root cands).1.map Prod.fst).flatMap (fun g => g.segs) := hs
      rcases List.mem_append.mp hs2 with h1 | h2
      · exact hfromroot h1
      · rcases List.mem_flatMap.mp h2 with ⟨g, hg, hsg⟩
        have hgc : g ∈ cands := hperm.subset (List.mem_append_left _ hg)
        have hsid : s.1 = g.entity.rgiId :=
          hown g (List.mem_cons_of_mem _ hgc) s hsg
        rw [hsid]
        intro heq
        exact hdisj (List.mem_map_of_mem _ hg) (heq ▸ hcid)
  · intro hc hroot hcands
    have hkeep : c ∈ (runBuild root cands).2 := by
      apply buildAux_keeps_unconnected c cands hcands cands.length [root] [] cands hc
        (fun g hg => hg)
      intro g hg
      rcases List.mem_singleton.mp hg with rfl
      exact hroot
    unfold mergeGlacierTasksSingle
    split
    · exact hkeep
    · exact hkeep

/-- Witness for the rejection theorem: the boundary-touching candidate
is rejected and none of its segments appears in the merged network. -/
theorem rejected_isolated_witness :
    (∀ s ∈ (mergeGlacierTasksSingle glW4r [glW4x, glW4y]).1.segs,
      s.1 ≠ glW4y.entity.rgiId) ∧
    glW4y ∈ (mergeGlacierTasksSingle glW4r [glW4x, glW4y]).2.2 :=
  ⟨(rejected_isolated glW4r [glW4x, glW4y] glW4y).1 (by decide) (by decide) (by decide),
   (rejected_isolated glW4r [glW4x, glW4y] glW4y).2 (by decide) (by decide) (by decide)⟩

/-- Witness for the width-correction rule on a concrete segment. -/
theorem width_correction_rect_witness :
    ∃ h2 : 0 < (catchment_width_correction [flSegW8]).length,
      ((([flSegW8].get ⟨0, by decide⟩).touchesIntersect = true →
        ((catchment_width_correction [flSegW8]).get ⟨0, h2⟩).bedRectangular = true) ∧
       (([flSegW8].get ⟨0, by decide⟩).touchesIntersect = false →
        (catchment_width_correction [flSegW8]).get ⟨0, h2⟩ = [flSegW8].get ⟨0, by decide⟩)) :=
  width_correction_rect [flSegW8] 0 (by decide)

section PrimarySelection

lemma largest_eq_none : ∀ l : List Glacier, largest l = none → l = [] := by
  intro l h
  cases l with
  | nil => rfl
  | cons a t =>
    cases ht : largest t with
    | none => simp [largest, ht] at h
    | some m =>
      rw [largest, ht] at h
      dsimp only at h
      by_cases hlt : a.entity.area < m.entity.area
      · rw [if_pos hlt] at h; cases h
      · rw [if_neg hlt] at h; cases h

lemma largest_spec : ∀ (gs : List Glacier) (L : Glacier), largest gs = some L →
    L ∈ gs ∧ ∀ g ∈ gs, g.entity.area ≤ L.entity.area := by
  intro gs
  induction gs with
  | nil => intro L hL; cases hL
  | cons a l ih =>
    intro L hL
    cases hl : largest l with
    | none =>
      rcases largest_eq_none l hl with rfl
      simp [largest] at hL
      rcases hL with rfl
      exact ⟨List.mem_singleton.mpr rfl, by
        intro g hg
        rcases List.mem_singleton.mp hg with rfl
        exact le_refl _⟩
    | some m =>
      obtain ⟨hmem, hbound⟩ := ih m hl
      by_cases hlt : a.entity.area < m.entity.area
      · have hL2 : L = m := by
          rw [largest, hl] at hL
          dsimp only at hL
          rw [if_pos hlt] at hL
          exact (Option.some_injective _ hL).symm
        subst hL2
        refine ⟨List.mem_cons_of_mem _ hmem, ?_⟩
        intro g hg
        rcases List.mem_cons.mp hg with rfl | hgl
        · exact le_of_lt hlt
        · exact hbound g hgl
      · have hL2 : L = a := by
          rw [largest, hl] at hL
          dsimp only at hL
          rw [if_neg hlt] at hL
          exact (Option.some_injective _ hL).symm
        subst hL2
        refine ⟨List.mem_cons_self _ _, ?_⟩
        intro g hg
        rcases List.mem_cons.mp hg with rfl | hgl
        · exact le_refl _
        · exact le_trans (hbound g hgl) (not_lt.mp hlt)

lemma largest_isSome (gs : List Glacier) (h : gs ≠ []) : ∃ L, largest gs = some L := by
  cases gs with
  | nil => exact absurd rfl h
  | cons a l =>
    cases hl : largest l with
    | none => exact ⟨a, by rw [largest, hl]⟩
    | some m =>
      by_cases hlt : a.entity.area < m.entity.area
      · refine ⟨m, ?_⟩
        rw [largest, hl]
        exact if_pos hlt
      · refine ⟨a, ?_⟩
        rw [largest, hl]
        exact if_neg hlt

/-- C6: the root of the automatic merge is the glacier with the largest
area — when no primary identifier is supplied the operation merges onto
the largest glacier and returns a collection of merge results — while a
supplied primary identifier pins the root and a single merged entity is
returned. -/
theorem primary_selection :
    (∀ (gs : List Glacier) (L : Glacier), largest gs = some L →
      L ∈ gs ∧ ∀ g ∈ gs, g.entity.area ≤ L.entity.area) ∧
    (∀ gs : List Glacier, gs ≠ [] → ∃ L rest, largest gs = some L ∧
      merge_glacier_tasks gs none = some (MergeResult.many
        ((mergeGlacierTasksSingle L
          (gs.filter (fun g => g.entity.rgiId != L.entity.rgiId))).1 :: rest))) ∧
    (∀ (gs : List Glacier) (i : String) (root : Glacier),
      gs.find? (fun g => g.entity.rgiId == i) = some root →
      merge_glacier_tasks gs (some i) = some (MergeResult.one
        (mergeGlacierTasksSingle root (gs.filter (fun g => g.entity.rgiId != i))).1)) := by
  refine ⟨largest_spec, ?_, ?_⟩
  · intro gs hne
    cases gs with
    | nil => exact absurd rfl hne
    | cons a l =>
      obtain ⟨L, hL⟩ := largest_isSome (a :: l) hne
      refine ⟨L, mergeAll l.length
        (mergeGlacierTasksSingle L
          ((a :: l).filter (fun g => g.entity.rgiId != L.entity.rgiId))).2.2, hL, ?_⟩
      show some (MergeResult.many (mergeAll (a :: l).length (a :: l))) = _
      have hstep : mergeAll (a :: l).length (a :: l)
          = (mergeGlacierTasksSingle L
              ((a :: l).filter (fun g => g.entity.rgiId != L.entity.rgiId))).1
            :: mergeAll l.length
              (mergeGlacierTasksSingle L
                ((a :: l).filter (fun g => g.entity.rgiId != L.entity.rgiId))).2.2 := by
        show mergeAll (l.length + 1) (a :: l) = _
        rw [mergeAll, hL]
      rw [hstep]
  · intro gs i root h
    show (match gs.find? (fun g => g.entity.rgiId == i) with
      | none => none
      | some root => some (MergeResult.one
          (mergeGlacierTasksSingle root (gs.filter (fun g => g.entity.rgiId != i))).1)) = _
    rw [h]

end PrimarySelection

/-- Witness for root selection: with no primary identifier the larger
glacier is the root and a collection is returned; with a primary
identifier the designated glacier is the root of a single entity. -/
theorem primary_selection_witness :
    (glW6b ∈ [glW6s, glW6b] ∧ ∀ g ∈ [glW6s, glW6b], g.entity.area ≤ glW6b.entity.area) ∧
    (∃ L rest, largest [glW6s, glW6b] = some L ∧
      merge_glacier_tasks [glW6s, glW6b] none = some (MergeResult.many
        ((mergeGlacierTasksSingle L
          ([glW6s, glW6b].filter (fun g => g.entity.rgiId != L.entity.rgiId))).1 :: rest))) ∧
    merge_glacier_tasks [glW6s, glW6b] (some "RGI60-11.00101")
      = some (MergeResult.one
        (mergeGlacierTasksSingle glW6s
          ([glW6s, glW6b].filter (fun g => g.entity.rgiId != "RGI60-11.00101"))).1) :=
  ⟨primary_selection.1 [glW6s, glW6b] glW6b (by decide),
   primary_selection.2.1 [glW6s, glW6b] (by decide),
   primary_selection.2.2 [glW6s, glW6b] "RGI60-11.00101" glW6s (by decide)⟩

/-- C10: the adjacent candidate is rejected with NoConnection purely
because its downstream flowline is computed only within its own domain,
bounded by its border parameter: its outline touches the root's outline
without flow-connecting, its full downstream path does reach the root's
downstream line, yet with border 2 it is rejected, and the identical
geometry with border 4 is accepted — so acceptance depends on the
per-glacier border configuration, not only on geometry and tolerance. -/
theorem border_limits_connection :
    (detect glBr glBc ≠ [] ∧ ∀ q ∈ detect glBr glBc, q.flowConnecting = false) ∧
    glBc.downstream.any (fun p => decide (p ∈ effectiveDownstream glBr)) = true ∧
    flowConnects glBr glBc = false ∧
    (mergeGlacierTasksSingle glBr [glBc]).2.2 = [glBc] ∧
    flowConnects glBr glBcWide = true ∧
    (mergeGlacierTasksSingle glBr [glBcWide]).2.1 = [glBcWide] := by
  refine ⟨⟨by decide, by decide⟩, by decide, by decide, by decide, by decide, by decide⟩

end Oggm
